import Mathlib

/-!
Verification of the tool-dispatch layer of `sheets_mcp/server.py`.

The Python module receives tool calls `(name, arguments)`, validates the
argument bag, invokes a gspread client (the "Gateway"), and renders every
outcome either as a list of `TextContent` envelopes or as a raised
`ValueError` / `RuntimeError`.  The embedding below mirrors the module
handler by handler: Python values become `PyVal`, the gspread client and
the objects it returns become records of response functions, raised
exceptions become the `Except` error channel, and the side effects that
matter to the specification (gateway invocations, `logger.error` records)
are collected in an explicit event list.
-/

namespace SheetsMcp

/-- Python values as they appear in tool-call argument bags and grids. -/
inductive PyVal where
  | none
  | bool (b : Bool)
  | int (n : Int)
  | str (s : String)
  | list (xs : List PyVal)
  | dict (entries : List (String × PyVal))

/-- Python `isinstance(v, dict)`. -/
def PyVal.isDict : PyVal → Bool
  | .dict _ => true
  | _ => false

/-- First-match lookup in a key/value entry list (Python dict lookup). -/
def lookupEntry : List (String × PyVal) → String → Option PyVal
  | [], _ => Option.none
  | (k, v) :: rest, key => if k = key then Option.some v else lookupEntry rest key

/-- Python `arguments.get(key)` returning `None`-vs-present as an `Option`. -/
def PyVal.getKey : PyVal → String → Option PyVal
  | .dict es, k => lookupEntry es k
  | _, _ => Option.none

/-- Python `key in arguments`. -/
def PyVal.hasKey (v : PyVal) (k : String) : Bool := (v.getKey k).isSome

/-- Python `arguments[key]` on a bag whose key presence was already checked. -/
def PyVal.item (v : PyVal) (k : String) : PyVal := (v.getKey k).getD .none

/-- Python `arguments.get(key, default)`. -/
def PyVal.getDefault (v : PyVal) (k : String) (d : PyVal) : PyVal := (v.getKey k).getD d

/-- Python truthiness, used by `if cell_range:` in the source. -/
def PyVal.truthy : PyVal → Bool
  | .none => false
  | .bool b => b
  | .int n => decide (n ≠ 0)
  | .str s => decide (s ≠ "")
  | .list xs => ¬ xs.isEmpty
  | .dict es => ¬ es.isEmpty

mutual
/-- Python `repr`, as used by `str` on containers; container rendering
follows CPython for quote-free strings (the quoting subtleties of `repr`
on strings containing quotes are not needed by any claim). -/
def PyVal.pyrepr : PyVal → String
  | .none => "None"
  | .bool b => if b then "True" else "False"
  | .int n => toString n
  | .str s => "\x27" ++ s ++ "\x27"
  | .list xs => "[" ++ pyreprSeq xs ++ "]"
  | .dict es => "\x7b" ++ pyreprEntries es ++ "\x7d"

/-- Comma-separated `repr` of a sequence of values. -/
def pyreprSeq : List PyVal → String
  | [] => ""
  | [v] => PyVal.pyrepr v
  | v :: rest => PyVal.pyrepr v ++ ", " ++ pyreprSeq rest

/-- Comma-separated `repr` of dict entries. -/
def pyreprEntries : List (String × PyVal) → String
  | [] => ""
  | [(k, v)] => "\x27" ++ k ++ "\x27: " ++ PyVal.pyrepr v
  | (k, v) :: rest => "\x27" ++ k ++ "\x27: " ++ PyVal.pyrepr v ++ ", " ++ pyreprEntries rest
end

/-- Python `str(v)`, as interpolated by the handlers' f-strings. -/
def PyVal.pystr : PyVal → String
  | .str s => s
  | v => v.pyrepr

/-- Substring search on character lists: `sub` occurs somewhere in the list. -/
def listContainsSub (sub : List Char) : List Char → Bool
  | [] => sub.isEmpty
  | c :: cs => sub.isPrefixOf (c :: cs) || listContainsSub sub cs

/-- Python `sub in s` on strings (substring containment). -/
def strContains (s sub : String) : Bool := listContainsSub sub.toList s.toList

/-- Python `v in collection` where the needle is a string literal.  On a
string it is substring containment, on a list it is element equality, on a
dict it is key membership; on scalars Python raises `TypeError`, modelled
as the error branch. -/
def pyContains (needle : String) : PyVal → Except String Bool
  | .str s => .ok (strContains s needle)
  | .list xs => .ok (xs.any (fun v => match v with | .str s => decide (s = needle) | _ => false))
  | .dict es => .ok (es.any (fun e => decide (e.1 = needle)))
  | .none => .error "argument of type \x27NoneType\x27 is not iterable"
  | .bool _ => .error "argument of type \x27bool\x27 is not iterable"
  | .int _ => .error "argument of type \x27int\x27 is not iterable"

/-- Python `str.split(sep)` worker: splits a character list on a non-empty
separator `s0 :: sr`, scanning left to right, with enough fuel to cover the
whole input (fuel is instantiated with the input length). -/
def splitChars (s0 : Char) (sr : List Char) : Nat → List Char → List (List Char)
  | _, [] => [[]]
  | 0, l => [l]
  | fuel + 1, c :: cs =>
    if (s0 :: sr).isPrefixOf (c :: cs) then
      [] :: splitChars s0 sr fuel (cs.drop sr.length)
    else
      match splitChars s0 sr fuel cs with
      | [] => [[c]]
      | r :: rs => (c :: r) :: rs

/-- Python `s.split(sep)` for a non-empty separator (Python raises on an
empty separator; the source only splits on "/d/" and "/"). -/
def pySplit (s sep : String) : List String :=
  match sep.toList with
  | [] => [s]
  | c0 :: crest => (splitChars c0 crest s.toList.length s.toList).map (fun l => String.mk l)

mutual
/-- Python `json.dumps` as used for the success envelopes.  The claims
constrain only which value is serialized, never the concrete JSON text, so
the indent-2 whitespace of the source's `json.dumps(..., indent=2)` is not
reproduced character by character. -/
def jsonDumps : PyVal → String
  | .none => "null"
  | .bool b => if b then "true" else "false"
  | .int n => toString n
  | .str s => "\"" ++ s ++ "\""
  | .list xs => "[" ++ jsonDumpsSeq xs ++ "]"
  | .dict es => "\x7b" ++ jsonDumpsEntries es ++ "\x7d"

/-- Comma-separated serialization of a JSON array body. -/
def jsonDumpsSeq : List PyVal → String
  | [] => ""
  | [v] => jsonDumps v
  | v :: rest => jsonDumps v ++ ", " ++ jsonDumpsSeq rest

/-- Comma-separated serialization of a JSON object body. -/
def jsonDumpsEntries : List (String × PyVal) → String
  | [] => ""
  | [(k, v)] => "\"" ++ k ++ "\": " ++ jsonDumps v
  | (k, v) :: rest => "\"" ++ k ++ "\": " ++ jsonDumps v ++ ", " ++ jsonDumpsEntries rest
end

/-- Row-major grid as a Python value, for `json.dumps(values)`. -/
def gridToPy (g : List (List PyVal)) : PyVal := .list (g.map PyVal.list)

/-- Errors raised by the gspread Gateway: the two domain kinds the source
catches by class, and everything else with only a message (`str(e)`). -/
inductive GwError where
  | spreadsheetNotFound (msg : String)
  | worksheetNotFound (msg : String)
  | otherFailure (msg : String)

/-- Python `str(e)` on a caught exception. -/
def GwError.msg : GwError → String
  | .spreadsheetNotFound m => m
  | .worksheetNotFound m => m
  | .otherFailure m => m

/-- A gspread worksheet object as the handlers use it: metadata fields plus
the operations invoked on it, each of which either returns or raises. -/
structure WorksheetObj where
  id : Int
  title : String
  row_count : Int
  col_count : Int
  get : PyVal → Except GwError (List (List PyVal))
  get_all_values : Except GwError (List (List PyVal))
  update : PyVal → PyVal → Except GwError Unit
  append_row : PyVal → Except GwError Unit

/-- A gspread spreadsheet object as the handlers use it. -/
structure SpreadsheetObj where
  id : String
  title : String
  worksheets : Except GwError (List WorksheetObj)
  worksheet : PyVal → Except GwError WorksheetObj
  add_worksheet : PyVal → PyVal → PyVal → Except GwError WorksheetObj

/-- One entry of `client.list_spreadsheet_files()`. -/
structure SpreadsheetFile where
  id : String
  name : String

/-- The authenticated gspread client, reduced to the four entry points the
handlers call on it. -/
structure Gateway where
  list_spreadsheet_files : Except GwError (List SpreadsheetFile)
  open_by_key : PyVal → Except GwError SpreadsheetObj
  openByTitle : PyVal → Except GwError SpreadsheetObj
  create : PyVal → Except GwError SpreadsheetObj

/-- Observable side effects of one dispatch: each Gateway invocation (with
the arguments it received) and each `logger.error` record. -/
inductive Event where
  | gwListSpreadsheetFiles
  | gwOpenByKey (key : PyVal)
  | gwOpenByTitle (title : PyVal)
  | gwCreate (title : PyVal)
  | gwWorksheets (ssId : String)
  | gwWorksheet (ssId : String) (name : PyVal)
  | gwAddWorksheet (ssId : String) (title rows cols : PyVal)
  | gwGet (wsTitle : String) (range : PyVal)
  | gwGetAllValues (wsTitle : String)
  | gwUpdate (wsTitle : String) (target value : PyVal)
  | gwAppendRow (wsTitle : String) (values : PyVal)
  | logError (msg : String)

/-- Whether an event is a Gateway invocation. -/
def Event.isGw : Event → Bool
  | .logError _ => false
  | _ => true

/-- Whether an event is a log record. -/
def Event.isLog : Event → Bool
  | .logError _ => true
  | _ => false

/-- Errors propagated to the caller: `raise ValueError(...)` for malformed
arguments and unknown tools, `raise RuntimeError(...)` for re-raised
failures. -/
inductive PyErr where
  | valueError (msg : String)
  | runtimeError (msg : String)

/-- One `TextContent(type="text", text=...)` element. -/
structure TextContent where
  type : String
  text : String

/-- TextContent with `type="text"`, the only shape the source builds. -/
def mkText (t : String) : TextContent := ⟨"text", t⟩

/-- The singleton envelope list every successful handler returns. -/
def ok1 (t : String) : Except PyErr (List TextContent) := .ok [mkText t]

/-- Result of one dispatch: the returned envelope list or raised error,
together with the event trace. -/
structure HandlerOut where
  outcome : Except PyErr (List TextContent)
  events : List Event

/-- The `isinstance(arguments, dict) and all(k in arguments for k in keys)`
guard each handler runs before its `try` block. -/
def validArgs (arguments : PyVal) (keys : List String) : Bool :=
  arguments.isDict && keys.all (fun k => arguments.hasKey k)

/-- One Gateway call inside a `try` block: `evs` already records the call,
`onErr` is the handler's `except` chain, `k` the rest of the `try` body. -/
def step {α : Type} (r : Except GwError α) (evs : List Event)
    (onErr : GwError → List Event → HandlerOut)
    (k : α → List Event → HandlerOut) : HandlerOut :=
  match r with
  | .ok a => k a evs
  | .error e => onErr e evs

/-- The canonical spreadsheet-URL marker tested by `handle_open_spreadsheet`. -/
def urlMarker : String := "https://docs.google.com/spreadsheets/d/"

/-- The source's id extraction, `identifier.split("/d/")[1].split("/")[0]`:
split on the literal `"/d/"` (not on the full URL marker), take the piece
after the first occurrence, then the segment before the next `"/"`. -/
def extractSheetId (identifier : String) : String :=
  (pySplit ((pySplit identifier "/d/").getD 1 "") "/").headD ""

/-- Modelled from the spec: the claimed extraction rule, splitting on the
canonical spreadsheet-URL marker substring itself and taking the first path
component after it.  Kept separate from `extractSheetId` (the source's
rule) so the two can be compared. -/
def specExtractSheetId (identifier : String) : String :=
  (pySplit ((pySplit identifier urlMarker).getD 1 "") "/").headD ""

/-- JSON payload built by `handle_list_spreadsheets` for one file entry. -/
def spreadsheetFileEntry (f : SpreadsheetFile) : PyVal :=
  .dict [("id", .str f.id), ("name", .str f.name),
         ("url", .str ("https://docs.google.com/spreadsheets/d/" ++ f.id))]

/-- The `except` chain of `handle_list_spreadsheets`: only the generic
`except Exception`, which logs and re-raises as `RuntimeError`. -/
def list_spreadsheets_catch (e : GwError) (evs : List Event) : HandlerOut :=
  let msg := "Error listing spreadsheets: " ++ e.msg
  ⟨.error (.runtimeError msg), evs ++ [.logError msg]⟩

/-- Handler for `list_spreadsheets`.  Note: the source never inspects
`arguments` here (there is no `isinstance` guard and no required field). -/
def handle_list_spreadsheets (client : Gateway) (_arguments : PyVal) : HandlerOut :=
  step client.list_spreadsheet_files [.gwListSpreadsheetFiles] list_spreadsheets_catch
    fun files evs =>
      ⟨ok1 (jsonDumps (.list (files.map spreadsheetFileEntry))), evs⟩

/-- The `except` chain of `handle_open_spreadsheet`: a `SpreadsheetNotFound`
clause rendering an envelope, then the generic clause. -/
def open_spreadsheet_catch (identifier : PyVal) (e : GwError) (evs : List Event) : HandlerOut :=
  match e with
  | .spreadsheetNotFound _ =>
      ⟨ok1 ("Spreadsheet \x27" ++ identifier.pystr ++ "\x27 not found."), evs⟩
  | e =>
      let msg := "Error opening spreadsheet: " ++ e.msg
      ⟨.error (.runtimeError msg), evs ++ [.logError msg]⟩

/-- JSON payload built by `handle_open_spreadsheet` on success. -/
def spreadsheetInfoJson (ss : SpreadsheetObj) (sheetCount : Nat) : PyVal :=
  .dict [("id", .str ss.id), ("title", .str ss.title),
         ("url", .str ("https://docs.google.com/spreadsheets/d/" ++ ss.id)),
         ("sheet_count", .int sheetCount)]

/-- Shared tail of `handle_open_spreadsheet` once a spreadsheet object is
resolved: `len(spreadsheet.worksheets())` is still inside the same `try`. -/
def open_spreadsheet_resolved (identifier : PyVal) (spreadsheet : SpreadsheetObj)
    (evs : List Event) : HandlerOut :=
  step spreadsheet.worksheets (evs ++ [.gwWorksheets spreadsheet.id])
    (open_spreadsheet_catch identifier) fun ws evs =>
      ⟨ok1 (jsonDumps (spreadsheetInfoJson spreadsheet ws.length)), evs⟩

/-- The `try` body of `handle_open_spreadsheet`.  A non-string identifier
that reaches the URL test raises a `TypeError` inside the `try`
(membership on a non-container) or an `AttributeError` (`.split` on a
non-string), both of which fall into the generic `except Exception`. -/
def open_spreadsheet_try (client : Gateway) (identifier : PyVal) : HandlerOut :=
  match pyContains urlMarker identifier with
  | .error tymsg => open_spreadsheet_catch identifier (.otherFailure tymsg) []
  | .ok true =>
    match identifier with
    | .str s =>
        step (client.open_by_key (.str (extractSheetId s)))
          [.gwOpenByKey (.str (extractSheetId s))]
          (open_spreadsheet_catch identifier) (open_spreadsheet_resolved identifier)
    | v =>
        open_spreadsheet_catch v
          (.otherFailure "\x27object\x27 has no attribute \x27split\x27") []
  | .ok false =>
      step (client.openByTitle identifier) [.gwOpenByTitle identifier]
        (open_spreadsheet_catch identifier) (open_spreadsheet_resolved identifier)

/-- Handler for `open_spreadsheet`. -/
def handle_open_spreadsheet (client : Gateway) (arguments : PyVal) : HandlerOut :=
  if ¬ validArgs arguments ["identifier"] then
    ⟨.error (.valueError "Invalid arguments for open_spreadsheet"), []⟩
  else
    open_spreadsheet_try client (arguments.item "identifier")

/-- JSON payload built for one worksheet object. -/
def worksheetInfoJson (w : WorksheetObj) : PyVal :=
  .dict [("id", .int w.id), ("title", .str w.title),
         ("rows", .int w.row_count), ("cols", .int w.col_count)]

/-- The `except` chain of `handle_list_worksheets`. -/
def list_worksheets_catch (spreadsheet_id : PyVal) (e : GwError) (evs : List Event) : HandlerOut :=
  match e with
  | .spreadsheetNotFound _ =>
      ⟨ok1 ("Spreadsheet with ID \x27" ++ spreadsheet_id.pystr ++ "\x27 not found."), evs⟩
  | e =>
      let msg := "Error listing worksheets: " ++ e.msg
      ⟨.error (.runtimeError msg), evs ++ [.logError msg]⟩

/-- Handler for `list_worksheets`. -/
def handle_list_worksheets (client : Gateway) (arguments : PyVal) : HandlerOut :=
  if ¬ validArgs arguments ["spreadsheet_id"] then
    ⟨.error (.valueError "Invalid arguments for list_worksheets"), []⟩
  else
    let spreadsheet_id := arguments.item "spreadsheet_id"
    step (client.open_by_key spreadsheet_id) [.gwOpenByKey spreadsheet_id]
      (list_worksheets_catch spreadsheet_id) fun spreadsheet evs =>
    step spreadsheet.worksheets (evs ++ [.gwWorksheets spreadsheet.id])
      (list_worksheets_catch spreadsheet_id) fun ws evs =>
      ⟨ok1 (jsonDumps (.list (ws.map worksheetInfoJson))), evs⟩

/-- The `except` chain of `handle_read_worksheet`: `SpreadsheetNotFound`,
`WorksheetNotFound`, then the generic clause. -/
def read_worksheet_catch (spreadsheet_id worksheet_name : PyVal)
    (e : GwError) (evs : List Event) : HandlerOut :=
  match e with
  | .spreadsheetNotFound _ =>
      ⟨ok1 ("Spreadsheet with ID \x27" ++ spreadsheet_id.pystr ++ "\x27 not found."), evs⟩
  | .worksheetNotFound _ =>
      ⟨ok1 ("Worksheet \x27" ++ worksheet_name.pystr ++ "\x27 not found in spreadsheet."), evs⟩
  | .otherFailure m =>
      let msg := "Error reading worksheet: " ++ m
      ⟨.error (.runtimeError msg), evs ++ [.logError msg]⟩

/-- Handler for `read_worksheet`.  `cell_range = arguments.get("range",
None)` followed by `if cell_range:` — Python truthiness, so an empty string
takes the full-worksheet branch. -/
def handle_read_worksheet (client : Gateway) (arguments : PyVal) : HandlerOut :=
  if ¬ validArgs arguments ["spreadsheet_id", "worksheet_name"] then
    ⟨.error (.valueError "Invalid arguments for read_worksheet"), []⟩
  else
    let spreadsheet_id := arguments.item "spreadsheet_id"
    let worksheet_name := arguments.item "worksheet_name"
    let cell_range := arguments.getDefault "range" .none
    step (client.open_by_key spreadsheet_id) [.gwOpenByKey spreadsheet_id]
      (read_worksheet_catch spreadsheet_id worksheet_name) fun spreadsheet evs =>
    step (spreadsheet.worksheet worksheet_name) (evs ++ [.gwWorksheet spreadsheet.id worksheet_name])
      (read_worksheet_catch spreadsheet_id worksheet_name) fun worksheet evs =>
    if cell_range.truthy then
      step (worksheet.get cell_range) (evs ++ [.gwGet worksheet.title cell_range])
        (read_worksheet_catch spreadsheet_id worksheet_name) fun values evs =>
        ⟨ok1 (jsonDumps (gridToPy values)), evs⟩
    else
      step worksheet.get_all_values (evs ++ [.gwGetAllValues worksheet.title])
        (read_worksheet_catch spreadsheet_id worksheet_name) fun values evs =>
        ⟨ok1 (jsonDumps (gridToPy values)), evs⟩

/-- The `except` chain of `handle_update_cell`. -/
def update_cell_catch (spreadsheet_id worksheet_name : PyVal)
    (e : GwError) (evs : List Event) : HandlerOut :=
  match e with
  | .spreadsheetNotFound _ =>
      ⟨ok1 ("Spreadsheet with ID \x27" ++ spreadsheet_id.pystr ++ "\x27 not found."), evs⟩
  | .worksheetNotFound _ =>
      ⟨ok1 ("Worksheet \x27" ++ worksheet_name.pystr ++ "\x27 not found in spreadsheet."), evs⟩
  | .otherFailure m =>
      let msg := "Error updating cell: " ++ m
      ⟨.error (.runtimeError msg), evs ++ [.logError msg]⟩

/-- Handler for `update_cell`. -/
def handle_update_cell (client : Gateway) (arguments : PyVal) : HandlerOut :=
  if ¬ validArgs arguments ["spreadsheet_id", "worksheet_name", "cell", "value"] then
    ⟨.error (.valueError "Invalid arguments for update_cell"), []⟩
  else
    let spreadsheet_id := arguments.item "spreadsheet_id"
    let worksheet_name := arguments.item "worksheet_name"
    let cell := arguments.item "cell"
    let value := arguments.item "value"
    step (client.open_by_key spreadsheet_id) [.gwOpenByKey spreadsheet_id]
      (update_cell_catch spreadsheet_id worksheet_name) fun spreadsheet evs =>
    step (spreadsheet.worksheet worksheet_name) (evs ++ [.gwWorksheet spreadsheet.id worksheet_name])
      (update_cell_catch spreadsheet_id worksheet_name) fun worksheet evs =>
    step (worksheet.update cell value) (evs ++ [.gwUpdate worksheet.title cell value])
      (update_cell_catch spreadsheet_id worksheet_name) fun _ evs =>
      ⟨ok1 ("Successfully updated cell " ++ cell.pystr ++ " in worksheet \x27"
            ++ worksheet_name.pystr ++ "\x27 to value: " ++ value.pystr), evs⟩

/-- The `except` chain of `handle_update_range`. -/
def update_range_catch (spreadsheet_id worksheet_name : PyVal)
    (e : GwError) (evs : List Event) : HandlerOut :=
  match e with
  | .spreadsheetNotFound _ =>
      ⟨ok1 ("Spreadsheet with ID \x27" ++ spreadsheet_id.pystr ++ "\x27 not found."), evs⟩
  | .worksheetNotFound _ =>
      ⟨ok1 ("Worksheet \x27" ++ worksheet_name.pystr ++ "\x27 not found in spreadsheet."), evs⟩
  | .otherFailure m =>
      let msg := "Error updating range: " ++ m
      ⟨.error (.runtimeError msg), evs ++ [.logError msg]⟩

/-- Handler for `update_range`. -/
def handle_update_range (client : Gateway) (arguments : PyVal) : HandlerOut :=
  if ¬ validArgs arguments ["spreadsheet_id", "worksheet_name", "range", "values"] then
    ⟨.error (.valueError "Invalid arguments for update_range"), []⟩
  else
    let spreadsheet_id := arguments.item "spreadsheet_id"
    let worksheet_name := arguments.item "worksheet_name"
    let cell_range := arguments.item "range"
    let values := arguments.item "values"
    step (client.open_by_key spreadsheet_id) [.gwOpenByKey spreadsheet_id]
      (update_range_catch spreadsheet_id worksheet_name) fun spreadsheet evs =>
    step (spreadsheet.worksheet worksheet_name) (evs ++ [.gwWorksheet spreadsheet.id worksheet_name])
      (update_range_catch spreadsheet_id worksheet_name) fun worksheet evs =>
    step (worksheet.update cell_range values) (evs ++ [.gwUpdate worksheet.title cell_range values])
      (update_range_catch spreadsheet_id worksheet_name) fun _ evs =>
      ⟨ok1 ("Successfully updated range " ++ cell_range.pystr ++ " in worksheet \x27"
            ++ worksheet_name.pystr ++ "\x27"), evs⟩

/-- The `except` chain of `handle_append_row`. -/
def append_row_catch (spreadsheet_id worksheet_name : PyVal)
    (e : GwError) (evs : List Event) : HandlerOut :=
  match e with
  | .spreadsheetNotFound _ =>
      ⟨ok1 ("Spreadsheet with ID \x27" ++ spreadsheet_id.pystr ++ "\x27 not found."), evs⟩
  | .worksheetNotFound _ =>
      ⟨ok1 ("Worksheet \x27" ++ worksheet_name.pystr ++ "\x27 not found in spreadsheet."), evs⟩
  | .otherFailure m =>
      let msg := "Error appending row: " ++ m
      ⟨.error (.runtimeError msg), evs ++ [.logError msg]⟩

/-- Handler for `append_row`. -/
def handle_append_row (client : Gateway) (arguments : PyVal) : HandlerOut :=
  if ¬ validArgs arguments ["spreadsheet_id", "worksheet_name", "values"] then
    ⟨.error (.valueError "Invalid arguments for append_row"), []⟩
  else
    let spreadsheet_id := arguments.item "spreadsheet_id"
    let worksheet_name := arguments.item "worksheet_name"
    let values := arguments.item "values"
    step (client.open_by_key spreadsheet_id) [.gwOpenByKey spreadsheet_id]
      (append_row_catch spreadsheet_id worksheet_name) fun spreadsheet evs =>
    step (spreadsheet.worksheet worksheet_name) (evs ++ [.gwWorksheet spreadsheet.id worksheet_name])
      (append_row_catch spreadsheet_id worksheet_name) fun worksheet evs =>
    step (worksheet.append_row values) (evs ++ [.gwAppendRow worksheet.title values])
      (append_row_catch spreadsheet_id worksheet_name) fun _ evs =>
      ⟨ok1 ("Successfully appended row to worksheet \x27" ++ worksheet_name.pystr ++ "\x27"), evs⟩

/-- The `except` chain of `handle_create_spreadsheet`: only the generic
`except Exception` — a `SpreadsheetNotFound` raised here is re-raised as a
`RuntimeError` like any other failure. -/
def create_spreadsheet_catch (e : GwError) (evs : List Event) : HandlerOut :=
  let msg := "Error creating spreadsheet: " ++ e.msg
  ⟨.error (.runtimeError msg), evs ++ [.logError msg]⟩

/-- Handler for `create_spreadsheet`. -/
def handle_create_spreadsheet (client : Gateway) (arguments : PyVal) : HandlerOut :=
  if ¬ validArgs arguments ["title"] then
    ⟨.error (.valueError "Invalid arguments for create_spreadsheet"), []⟩
  else
    let title := arguments.item "title"
    step (client.create title) [.gwCreate title] create_spreadsheet_catch
      fun spreadsheet evs =>
        ⟨ok1 (jsonDumps (.dict [("id", .str spreadsheet.id), ("title", .str spreadsheet.title),
              ("url", .str ("https://docs.google.com/spreadsheets/d/" ++ spreadsheet.id))])), evs⟩

/-- The `except` chain of `handle_create_worksheet`: a `SpreadsheetNotFound`
clause, then the generic clause (no `WorksheetNotFound` clause exists). -/
def create_worksheet_catch (spreadsheet_id : PyVal) (e : GwError) (evs : List Event) : HandlerOut :=
  match e with
  | .spreadsheetNotFound _ =>
      ⟨ok1 ("Spreadsheet with ID \x27" ++ spreadsheet_id.pystr ++ "\x27 not found."), evs⟩
  | e =>
      let msg := "Error creating worksheet: " ++ e.msg
      ⟨.error (.runtimeError msg), evs ++ [.logError msg]⟩

/-- Handler for `create_worksheet`: `rows = arguments.get("rows", 100)`,
`cols = arguments.get("cols", 26)`. -/
def handle_create_worksheet (client : Gateway) (arguments : PyVal) : HandlerOut :=
  if ¬ validArgs arguments ["spreadsheet_id", "title"] then
    ⟨.error (.valueError "Invalid arguments for create_worksheet"), []⟩
  else
    let spreadsheet_id := arguments.item "spreadsheet_id"
    let title := arguments.item "title"
    let rows := arguments.getDefault "rows" (.int 100)
    let cols := arguments.getDefault "cols" (.int 26)
    step (client.open_by_key spreadsheet_id) [.gwOpenByKey spreadsheet_id]
      (create_worksheet_catch spreadsheet_id) fun spreadsheet evs =>
    step (spreadsheet.add_worksheet title rows cols)
      (evs ++ [.gwAddWorksheet spreadsheet.id title rows cols])
      (create_worksheet_catch spreadsheet_id) fun worksheet evs =>
      ⟨ok1 (jsonDumps (worksheetInfoJson worksheet)), evs⟩

/-- The dispatch chain of `call_tool`: route by name, raise
`ValueError(f"Unknown tool: ...")` for unregistered names. -/
def call_tool (client : Gateway) (name : String) (arguments : PyVal) : HandlerOut :=
  if name = "list_spreadsheets" then handle_list_spreadsheets client arguments
  else if name = "open_spreadsheet" then handle_open_spreadsheet client arguments
  else if name = "list_worksheets" then handle_list_worksheets client arguments
  else if name = "read_worksheet" then handle_read_worksheet client arguments
  else if name = "update_cell" then handle_update_cell client arguments
  else if name = "update_range" then handle_update_range client arguments
  else if name = "append_row" then handle_append_row client arguments
  else if name = "create_spreadsheet" then handle_create_spreadsheet client arguments
  else if name = "create_worksheet" then handle_create_worksheet client arguments
  else ⟨.error (.valueError ("Unknown tool: " ++ name)), []⟩

/-- Names of the tools registered by `list_tools`. -/
def registeredToolNames : List String :=
  ["list_spreadsheets", "open_spreadsheet", "list_worksheets", "read_worksheet",
   "update_cell", "update_range", "append_row", "create_spreadsheet", "create_worksheet"]

/-- Required fields of each tool's input schema, as declared in
`list_tools` and as checked by the matching handler. -/
def requiredFields : String → List String
  | "open_spreadsheet" => ["identifier"]
  | "list_worksheets" => ["spreadsheet_id"]
  | "read_worksheet" => ["spreadsheet_id", "worksheet_name"]
  | "update_cell" => ["spreadsheet_id", "worksheet_name", "cell", "value"]
  | "update_range" => ["spreadsheet_id", "worksheet_name", "range", "values"]
  | "append_row" => ["spreadsheet_id", "worksheet_name", "values"]
  | "create_spreadsheet" => ["title"]
  | "create_worksheet" => ["spreadsheet_id", "title"]
  | _ => []

/-- The tools whose handlers have a dedicated `except SpreadsheetNotFound`
clause (all registered tools except `list_spreadsheets` and
`create_spreadsheet`, whose handlers only have the generic clause). -/
def snfEnvelopeTools : List String :=
  ["open_spreadsheet", "list_worksheets", "read_worksheet",
   "update_cell", "update_range", "append_row", "create_worksheet"]

/-- The argument whose value appears in a tool's spreadsheet-not-found
envelope: the raw identifier for `open_spreadsheet`, the spreadsheet id for
the rest. -/
def identKey : String → String
  | "open_spreadsheet" => "identifier"
  | _ => "spreadsheet_id"

/-- A stub gateway whose every operation raises `e`. -/
def raiseAllGw (e : GwError) : Gateway :=
  ⟨.error e, fun _ => .error e, fun _ => .error e, fun _ => .error e⟩

/-- A stub gateway whose `list_spreadsheet_files` succeeds with an empty
list and whose resolution operations raise `SpreadsheetNotFound("X")`. -/
def okListGw : Gateway :=
  ⟨.ok [], fun _ => .error (.spreadsheetNotFound "X"),
   fun _ => .error (.spreadsheetNotFound "X"),
   fun _ => .error (.spreadsheetNotFound "X")⟩

/-- Modelled from the spec: the contents of one remote worksheet, which the
repository itself never stores (gspread, the remote-service facade, is the
missing code) — declared row/column counts plus a cell-contents function. -/
structure WsData where
  rows : Nat
  cols : Nat
  cell : Nat → Nat → PyVal

/-- Modelled from the spec: `get_all_values` returns every populated and
unpopulated cell within the worksheet's declared row/col bounds as a
complete grid, with no trailing-empty-cell trimming. -/
def specGetAll (w : WsData) : List (List PyVal) :=
  (List.range w.rows).map (fun r => (List.range w.cols).map (fun c => w.cell r c))

/-- Column letters of an A1 reference to a 1-based column number. -/
def parseCol (cs : List Char) : Nat :=
  cs.foldl (fun a c => a * 26 + (c.toNat - 64)) 0

/-- Row digits of an A1 reference to a 1-based row number. -/
def parseRowDigits (cs : List Char) : Nat :=
  cs.foldl (fun a c => a * 10 + (c.toNat - 48)) 0

/-- Parse a single A1 cell reference such as "B2" into (row, column). -/
def parseCellRef (s : String) : Nat × Nat :=
  let p := s.toList.span Char.isAlpha
  (parseRowDigits p.2, parseCol p.1)

/-- Modelled from the spec: a ranged read returns exactly the rectangle the
A1 range denotes ("A1:B2" yields a 2-by-2 grid). -/
def specGet (w : WsData) (rangeStr : String) : List (List PyVal) :=
  match pySplit rangeStr ":" with
  | [a, b] =>
      let p := parseCellRef a
      let q := parseCellRef b
      (List.range (q.1 + 1 - p.1)).map
        (fun i => (List.range (q.2 + 1 - p.2)).map (fun j => w.cell (p.1 + i) (p.2 + j)))
  | _ =>
      let p := parseCellRef rangeStr
      [[w.cell p.1 p.2]]

/-- Modelled from the spec: a worksheet object over `WsData` whose read
operations follow the spec's `readRange` contract; write operations
succeed silently (fire-and-forget). -/
def specWorksheet (w : WsData) : WorksheetObj :=
  ⟨0, "Sheet1", Int.ofNat w.rows, Int.ofNat w.cols,
   (fun r => match r with
     | .str s => .ok (specGet w s)
     | _ => .error (.otherFailure "invalid range")),
   .ok (specGetAll w),
   (fun _ _ => .ok ()), (fun _ => .ok ())⟩

/-- Modelled from the spec: a spreadsheet object resolving every worksheet
name to the single spec worksheet. -/
def specSpreadsheet (w : WsData) : SpreadsheetObj :=
  ⟨"spec-ss", "Spec", .ok [specWorksheet w], (fun _ => .ok (specWorksheet w)),
   (fun _ _ _ => .ok (specWorksheet w))⟩

/-- Modelled from the spec: a gateway resolving every identifier to the
spec spreadsheet. -/
def specGw (w : WsData) : Gateway :=
  ⟨.ok [], fun _ => .ok (specSpreadsheet w), fun _ => .ok (specSpreadsheet w),
   fun _ => .ok (specSpreadsheet w)⟩

/-- A dispatch result carries exactly one text content element whenever it
is success-shaped. -/
def OneText (h : HandlerOut) : Prop := ∀ l, h.outcome = .ok l → l.length = 1

/-- A dispatch result never raises `ValueError`. -/
def NoValueError (h : HandlerOut) : Prop := ∀ m, h.outcome ≠ .error (.valueError m)

/-- The event trace extends the given prefix. -/
def EventsFrom (evs : List Event) (h : HandlerOut) : Prop := ∃ t, h.events = evs ++ t

/-- Combined shape invariant of a handler output relative to the events
already recorded. -/
def GoodOut (evs : List Event) (h : HandlerOut) : Prop :=
  OneText h ∧ NoValueError h ∧ EventsFrom evs h

/-- The first recorded event is a Gateway invocation. -/
def GwFirst (h : HandlerOut) : Prop := ∃ ev t, h.events = ev :: t ∧ ev.isGw = true

theorem listContainsSub_of_isPrefixOf {sub l : List Char} (h : sub.isPrefixOf l = true) :
    listContainsSub sub l = true := by
  cases l with
  | nil =>
    cases sub with
    | nil => rfl
    | cons a as => simp at h
  | cons c cs => simp [listContainsSub, h]

theorem listContainsSub_cons {sub l : List Char} (c : Char)
    (h : listContainsSub sub l = true) : listContainsSub sub (c :: l) = true := by
  simp [listContainsSub, h]

theorem listContainsSub_append {sub l : List Char} (a : List Char)
    (h : listContainsSub sub l = true) : listContainsSub sub (a ++ l) = true := by
  induction a with
  | nil => simpa using h
  | cons c cs ih => exact listContainsSub_cons c ih

theorem stringToList_append (a b : String) : (a ++ b).toList = a.toList ++ b.toList := by
  simp [String.toList, String.data_append]

theorem strContains_append_right (a b : String) : strContains (a ++ b) b = true := by
  unfold strContains
  rw [stringToList_append]
  exact listContainsSub_append a.toList
    (listContainsSub_of_isPrefixOf (List.isPrefixOf_iff_prefix.mpr List.prefix_rfl))

theorem strContains_middle (a b c : String) : strContains (a ++ b ++ c) b = true := by
  unfold strContains
  rw [stringToList_append, stringToList_append, List.append_assoc]
  exact listContainsSub_append a.toList
    (listContainsSub_of_isPrefixOf
      (List.isPrefixOf_iff_prefix.mpr (List.prefix_append b.toList c.toList)))

theorem strContains_in_right (a b sub : String) (h : strContains b sub = true) :
    strContains (a ++ b) sub = true := by
  unfold strContains at *
  rw [stringToList_append]
  exact listContainsSub_append a.toList h

theorem validArgs_eq_true_iff (args : PyVal) (keys : List String) :
    validArgs args keys = true ↔ args.isDict = true ∧ ∀ k ∈ keys, args.hasKey k = true := by
  simp [validArgs, List.all_eq_true]

theorem validArgs_eq_false_of (args : PyVal) (keys : List String)
    (h : args.isDict = false ∨ ∃ k ∈ keys, args.hasKey k = false) :
    validArgs args keys = false := by
  apply Bool.eq_false_iff.mpr
  rw [Ne, validArgs_eq_true_iff]
  rintro ⟨h1, h2⟩
  rcases h with h | ⟨k, hk, hf⟩
  · rw [h1] at h; exact Bool.noConfusion h
  · have := h2 k hk
    rw [this] at hf
    exact Bool.noConfusion hf

theorem goodOut_ok1 (t : String) (evs tail : List Event) :
    GoodOut evs ⟨ok1 t, evs ++ tail⟩ := by
  refine ⟨?_, ?_, tail, rfl⟩
  · intro l hl
    simp only [ok1] at hl
    cases hl
    rfl
  · intro m hm
    simp [ok1] at hm

theorem goodOut_ok1_self {t : String} {evs : List Event} :
    GoodOut evs ⟨ok1 t, evs⟩ := by
  have h := goodOut_ok1 t evs []
  simpa using h

theorem goodOut_runtimeError {m : String} {evs tail : List Event} :
    GoodOut evs ⟨.error (.runtimeError m), evs ++ tail⟩ := by
  refine ⟨?_, ?_, tail, rfl⟩
  · intro l hl
    simp at hl
  · intro m2 hm
    simp at hm

theorem goodOut_step {α : Type} {r : Except GwError α} {evs : List Event}
    {onErr : GwError → List Event → HandlerOut} {k : α → List Event → HandlerOut}
    (h1 : ∀ e evs, GoodOut evs (onErr e evs)) (h2 : ∀ a evs, GoodOut evs (k a evs)) :
    GoodOut evs (step r evs onErr k) := by
  cases r with
  | ok a => exact h2 a evs
  | error e => exact h1 e evs

theorem goodOut_shift {evs : List Event} (x : List Event) {h : HandlerOut}
    (hg : GoodOut (evs ++ x) h) : GoodOut evs h := by
  obtain ⟨h1, h2, t, ht⟩ := hg
  exact ⟨h1, h2, x ++ t, by rw [ht, List.append_assoc]⟩

theorem goodCatch_list_spreadsheets :
    ∀ e evs, GoodOut evs (list_spreadsheets_catch e evs) := by
  intro e evs
  exact goodOut_runtimeError

theorem goodCatch_open_spreadsheet (identifier : PyVal) :
    ∀ e evs, GoodOut evs (open_spreadsheet_catch identifier e evs) := by
  intro e evs
  cases e with
  | spreadsheetNotFound m => exact goodOut_ok1_self
  | worksheetNotFound m => exact goodOut_runtimeError
  | otherFailure m => exact goodOut_runtimeError

theorem goodCatch_list_worksheets (spreadsheet_id : PyVal) :
    ∀ e evs, GoodOut evs (list_worksheets_catch spreadsheet_id e evs) := by
  intro e evs
  cases e with
  | spreadsheetNotFound m => exact goodOut_ok1_self
  | worksheetNotFound m => exact goodOut_runtimeError
  | otherFailure m => exact goodOut_runtimeError

theorem goodCatch_read_worksheet (spreadsheet_id worksheet_name : PyVal) :
    ∀ e evs, GoodOut evs (read_worksheet_catch spreadsheet_id worksheet_name e evs) := by
  intro e evs
  cases e with
  | spreadsheetNotFound m => exact goodOut_ok1_self
  | worksheetNotFound m => exact goodOut_ok1_self
  | otherFailure m => exact goodOut_runtimeError

theorem goodCatch_update_cell (spreadsheet_id worksheet_name : PyVal) :
    ∀ e evs, GoodOut evs (update_cell_catch spreadsheet_id worksheet_name e evs) := by
  intro e evs
  cases e with
  | spreadsheetNotFound m => exact goodOut_ok1_self
  | worksheetNotFound m => exact goodOut_ok1_self
  | otherFailure m => exact goodOut_runtimeError

theorem goodCatch_update_range (spreadsheet_id worksheet_name : PyVal) :
    ∀ e evs, GoodOut evs (update_range_catch spreadsheet_id worksheet_name e evs) := by
  intro e evs
  cases e with
  | spreadsheetNotFound m => exact goodOut_ok1_self
  | worksheetNotFound m => exact goodOut_ok1_self
  | otherFailure m => exact goodOut_runtimeError

theorem goodCatch_append_row (spreadsheet_id worksheet_name : PyVal) :
    ∀ e evs, GoodOut evs (append_row_catch spreadsheet_id worksheet_name e evs) := by
  intro e evs
  cases e with
  | spreadsheetNotFound m => exact goodOut_ok1_self
  | worksheetNotFound m => exact goodOut_ok1_self
  | otherFailure m => exact goodOut_runtimeError

theorem goodCatch_create_spreadsheet :
    ∀ e evs, GoodOut evs (create_spreadsheet_catch e evs) := by
  intro e evs
  exact goodOut_runtimeError

theorem goodCatch_create_worksheet (spreadsheet_id : PyVal) :
    ∀ e evs, GoodOut evs (create_worksheet_catch spreadsheet_id e evs) := by
  intro e evs
  cases e with
  | spreadsheetNotFound m => exact goodOut_ok1_self
  | worksheetNotFound m => exact goodOut_runtimeError
  | otherFailure m => exact goodOut_runtimeError

theorem goodOut_handle_list_spreadsheets (client : Gateway) (args : PyVal) :
    GoodOut [.gwListSpreadsheetFiles] (handle_list_spreadsheets client args) := by
  unfold handle_list_spreadsheets
  exact goodOut_step goodCatch_list_spreadsheets (fun files evs => goodOut_ok1_self)

theorem goodOut_open_spreadsheet_resolved (identifier : PyVal) (ss : SpreadsheetObj)
    (evs : List Event) : GoodOut evs (open_spreadsheet_resolved identifier ss evs) := by
  unfold open_spreadsheet_resolved
  apply goodOut_shift [.gwWorksheets ss.id]
  exact goodOut_step (goodCatch_open_spreadsheet identifier) (fun ws evs => goodOut_ok1_self)

theorem goodOut_handle_list_worksheets (client : Gateway) (args : PyVal)
    (hv : validArgs args ["spreadsheet_id"] = true) :
    GoodOut [.gwOpenByKey (args.item "spreadsheet_id")] (handle_list_worksheets client args) := by
  unfold handle_list_worksheets
  rw [if_neg (not_not_intro hv)]
  apply goodOut_step (goodCatch_list_worksheets _)
  intro ss evs
  apply goodOut_shift [.gwWorksheets ss.id]
  exact goodOut_step (goodCatch_list_worksheets _) (fun ws evs => goodOut_ok1_self)

theorem goodOut_handle_read_worksheet (client : Gateway) (args : PyVal)
    (hv : validArgs args ["spreadsheet_id", "worksheet_name"] = true) :
    GoodOut [.gwOpenByKey (args.item "spreadsheet_id")] (handle_read_worksheet client args) := by
  unfold handle_read_worksheet
  rw [if_neg (not_not_intro hv)]
  apply goodOut_step (goodCatch_read_worksheet _ _)
  intro ss evs
  apply goodOut_shift [.gwWorksheet ss.id (args.item "worksheet_name")]
  apply goodOut_step (goodCatch_read_worksheet _ _)
  intro ws evs
  split
  · apply goodOut_shift [.gwGet ws.title (args.getDefault "range" .none)]
    exact goodOut_step (goodCatch_read_worksheet _ _) (fun v evs => goodOut_ok1_self)
  · apply goodOut_shift [.gwGetAllValues ws.title]
    exact goodOut_step (goodCatch_read_worksheet _ _) (fun v evs => goodOut_ok1_self)

theorem goodOut_handle_update_cell (client : Gateway) (args : PyVal)
    (hv : validArgs args ["spreadsheet_id", "worksheet_name", "cell", "value"] = true) :
    GoodOut [.gwOpenByKey (args.item "spreadsheet_id")] (handle_update_cell client args) := by
  unfold handle_update_cell
  rw [if_neg (not_not_intro hv)]
  apply goodOut_step (goodCatch_update_cell _ _)
  intro ss evs
  apply goodOut_shift [.gwWorksheet ss.id (args.item "worksheet_name")]
  apply goodOut_step (goodCatch_update_cell _ _)
  intro ws evs
  apply goodOut_shift [.gwUpdate ws.title (args.item "cell") (args.item "value")]
  exact goodOut_step (goodCatch_update_cell _ _) (fun v evs => goodOut_ok1_self)

theorem goodOut_handle_update_range (client : Gateway) (args : PyVal)
    (hv : validArgs args ["spreadsheet_id", "worksheet_name", "range", "values"] = true) :
    GoodOut [.gwOpenByKey (args.item "spreadsheet_id")] (handle_update_range client args) := by
  unfold handle_update_range
  rw [if_neg (not_not_intro hv)]
  apply goodOut_step (goodCatch_update_range _ _)
  intro ss evs
  apply goodOut_shift [.gwWorksheet ss.id (args.item "worksheet_name")]
  apply goodOut_step (goodCatch_update_range _ _)
  intro ws evs
  apply goodOut_shift [.gwUpdate ws.title (args.item "range") (args.item "values")]
  exact goodOut_step (goodCatch_update_range _ _) (fun v evs => goodOut_ok1_self)

theorem goodOut_handle_append_row (client : Gateway) (args : PyVal)
    (hv : validArgs args ["spreadsheet_id", "worksheet_name", "values"] = true) :
    GoodOut [.gwOpenByKey (args.item "spreadsheet_id")] (handle_append_row client args) := by
  unfold handle_append_row
  rw [if_neg (not_not_intro hv)]
  apply goodOut_step (goodCatch_append_row _ _)
  intro ss evs
  apply goodOut_shift [.gwWorksheet ss.id (args.item "worksheet_name")]
  apply goodOut_step (goodCatch_append_row _ _)
  intro ws evs
  apply goodOut_shift [.gwAppendRow ws.title (args.item "values")]
  exact goodOut_step (goodCatch_append_row _ _) (fun v evs => goodOut_ok1_self)

theorem goodOut_handle_create_spreadsheet (client : Gateway) (args : PyVal)
    (hv : validArgs args ["title"] = true) :
    GoodOut [.gwCreate (args.item "title")] (handle_create_spreadsheet client args) := by
  unfold handle_create_spreadsheet
  rw [if_neg (not_not_intro hv)]
  exact goodOut_step goodCatch_create_spreadsheet (fun ss evs => goodOut_ok1_self)

theorem goodOut_handle_create_worksheet (client : Gateway) (args : PyVal)
    (hv : validArgs args ["spreadsheet_id", "title"] = true) :
    GoodOut [.gwOpenByKey (args.item "spreadsheet_id")] (handle_create_worksheet client args) := by
  unfold handle_create_worksheet
  rw [if_neg (not_not_intro hv)]
  apply goodOut_step (goodCatch_create_worksheet _)
  intro ss evs
  apply goodOut_shift
    [.gwAddWorksheet ss.id (args.item "title")
      (args.getDefault "rows" (.int 100)) (args.getDefault "cols" (.int 26))]
  exact goodOut_step (goodCatch_create_worksheet _) (fun ws evs => goodOut_ok1_self)

theorem goodOut_open_spreadsheet_try_url (client : Gateway) (s : String)
    (hc : strContains s urlMarker = true) :
    GoodOut [Event.gwOpenByKey (.str (extractSheetId s))]
      (open_spreadsheet_try client (.str s)) := by
  unfold open_spreadsheet_try
  simp only [pyContains, hc]
  exact goodOut_step (goodCatch_open_spreadsheet _)
    (fun ss evs => goodOut_open_spreadsheet_resolved _ ss evs)

theorem goodOut_open_spreadsheet_try_title (client : Gateway) (s : String)
    (hc : strContains s urlMarker = false) :
    GoodOut [Event.gwOpenByTitle (.str s)]
      (open_spreadsheet_try client (.str s)) := by
  unfold open_spreadsheet_try
  simp only [pyContains, hc]
  exact goodOut_step (goodCatch_open_spreadsheet _)
    (fun ss evs => goodOut_open_spreadsheet_resolved _ ss evs)

theorem noValueError_open_spreadsheet_try (client : Gateway) (identifier : PyVal) :
    NoValueError (open_spreadsheet_try client identifier) := by
  unfold open_spreadsheet_try
  split
  · exact (goodCatch_open_spreadsheet _ _ _).2.1
  · split
    · exact (goodOut_step (goodCatch_open_spreadsheet _)
        (fun ss evs => goodOut_open_spreadsheet_resolved _ ss evs)).2.1
    · exact (goodCatch_open_spreadsheet _ _ _).2.1
  · exact (goodOut_step (goodCatch_open_spreadsheet _)
      (fun ss evs => goodOut_open_spreadsheet_resolved _ ss evs)).2.1

theorem oneText_open_spreadsheet_try (client : Gateway) (identifier : PyVal) :
    OneText (open_spreadsheet_try client identifier) := by
  unfold open_spreadsheet_try
  split
  · exact (goodCatch_open_spreadsheet _ _ _).1
  · split
    · exact (goodOut_step (goodCatch_open_spreadsheet _)
        (fun ss evs => goodOut_open_spreadsheet_resolved _ ss evs)).1
    · exact (goodCatch_open_spreadsheet _ _ _).1
  · exact (goodOut_step (goodCatch_open_spreadsheet _)
      (fun ss evs => goodOut_open_spreadsheet_resolved _ ss evs)).1

theorem call_tool_list_spreadsheets (client : Gateway) (args : PyVal) :
    call_tool client "list_spreadsheets" args = handle_list_spreadsheets client args := rfl

theorem call_tool_open_spreadsheet (client : Gateway) (args : PyVal) :
    call_tool client "open_spreadsheet" args = handle_open_spreadsheet client args := rfl

theorem call_tool_list_worksheets (client : Gateway) (args : PyVal) :
    call_tool client "list_worksheets" args = handle_list_worksheets client args := rfl

theorem call_tool_read_worksheet (client : Gateway) (args : PyVal) :
    call_tool client "read_worksheet" args = handle_read_worksheet client args := rfl

theorem call_tool_update_cell (client : Gateway) (args : PyVal) :
    call_tool client "update_cell" args = handle_update_cell client args := rfl

theorem call_tool_update_range (client : Gateway) (args : PyVal) :
    call_tool client "update_range" args = handle_update_range client args := rfl

theorem call_tool_append_row (client : Gateway) (args : PyVal) :
    call_tool client "append_row" args = handle_append_row client args := rfl

theorem call_tool_create_spreadsheet (client : Gateway) (args : PyVal) :
    call_tool client "create_spreadsheet" args = handle_create_spreadsheet client args := rfl

theorem call_tool_create_worksheet (client : Gateway) (args : PyVal) :
    call_tool client "create_worksheet" args = handle_create_worksheet client args := rfl

theorem oneText_invalid (m : String) : OneText ⟨.error (.valueError m), []⟩ := by
  intro l hl
  simp at hl

theorem oneText_handle_open_spreadsheet (client : Gateway) (args : PyVal) :
    OneText (handle_open_spreadsheet client args) := by
  unfold handle_open_spreadsheet
  split
  · exact oneText_invalid _
  · exact oneText_open_spreadsheet_try client _

theorem oneText_handle_list_worksheets (client : Gateway) (args : PyVal) :
    OneText (handle_list_worksheets client args) := by
  by_cases hv : validArgs args ["spreadsheet_id"] = true
  · exact (goodOut_handle_list_worksheets client args hv).1
  · unfold handle_list_worksheets
    rw [if_pos hv]
    exact oneText_invalid _

theorem oneText_handle_read_worksheet (client : Gateway) (args : PyVal) :
    OneText (handle_read_worksheet client args) := by
  by_cases hv : validArgs args ["spreadsheet_id", "worksheet_name"] = true
  · exact (goodOut_handle_read_worksheet client args hv).1
  · unfold handle_read_worksheet
    rw [if_pos hv]
    exact oneText_invalid _

theorem oneText_handle_update_cell (client : Gateway) (args : PyVal) :
    OneText (handle_update_cell client args) := by
  by_cases hv : validArgs args ["spreadsheet_id", "worksheet_name", "cell", "value"] = true
  · exact (goodOut_handle_update_cell client args hv).1
  · unfold handle_update_cell
    rw [if_pos hv]
    exact oneText_invalid _

theorem oneText_handle_update_range (client : Gateway) (args : PyVal) :
    OneText (handle_update_range client args) := by
  by_cases hv : validArgs args ["spreadsheet_id", "worksheet_name", "range", "values"] = true
  · exact (goodOut_handle_update_range client args hv).1
  · unfold handle_update_range
    rw [if_pos hv]
    exact oneText_invalid _

theorem oneText_handle_append_row (client : Gateway) (args : PyVal) :
    OneText (handle_append_row client args) := by
  by_cases hv : validArgs args ["spreadsheet_id", "worksheet_name", "values"] = true
  · exact (goodOut_handle_append_row client args hv).1
  · unfold handle_append_row
    rw [if_pos hv]
    exact oneText_invalid _

theorem oneText_handle_create_spreadsheet (client : Gateway) (args : PyVal) :
    OneText (handle_create_spreadsheet client args) := by
  by_cases hv : validArgs args ["title"] = true
  · exact (goodOut_handle_create_spreadsheet client args hv).1
  · unfold handle_create_spreadsheet
    rw [if_pos hv]
    exact oneText_invalid _

theorem oneText_handle_create_worksheet (client : Gateway) (args : PyVal) :
    OneText (handle_create_worksheet client args) := by
  by_cases hv : validArgs args ["spreadsheet_id", "title"] = true
  · exact (goodOut_handle_create_worksheet client args hv).1
  · unfold handle_create_worksheet
    rw [if_pos hv]
    exact oneText_invalid _

/-- Claim C8 (confirmed): every dispatch that completes without raising —
every success and every domain-not-found outcome, for every tool — returns
a sequence of exactly one text content element. -/
theorem c8_single_text_envelope (client : Gateway) (name : String) (args : PyVal)
    (l : List TextContent)
    (h : (call_tool client name args).outcome = .ok l) : l.length = 1 := by
  revert h
  unfold call_tool
  split_ifs
  · exact (goodOut_handle_list_spreadsheets client args).1 l
  · exact oneText_handle_open_spreadsheet client args l
  · exact oneText_handle_list_worksheets client args l
  · exact oneText_handle_read_worksheet client args l
  · exact oneText_handle_update_cell client args l
  · exact oneText_handle_update_range client args l
  · exact oneText_handle_append_row client args l
  · exact oneText_handle_create_spreadsheet client args l
  · exact oneText_handle_create_worksheet client args l
  · exact fun h => h.elim

/-- Witness for C8 at a concrete dispatch: `list_spreadsheets` on a stub
gateway returns a singleton envelope. -/
theorem c8_witness :
    (call_tool okListGw "list_spreadsheets" (.dict [])).outcome
      = .ok [mkText (jsonDumps (.list []))] ∧
    [mkText (jsonDumps (.list []))].length = 1 :=
  ⟨rfl, c8_single_text_envelope okListGw "list_spreadsheets" (.dict []) _ rfl⟩

/-- Claim C4 (confirmed): an unknown tool name raises a `ValueError` whose
message identifies the unknown name, and no handler or Gateway operation is
invoked (the event trace is empty). -/
theorem c4_unknown_tool (client : Gateway) (name : String) (args : PyVal)
    (h : name ∉ registeredToolNames) :
    call_tool client name args
      = ⟨.error (.valueError ("Unknown tool: " ++ name)), []⟩ := by
  simp only [registeredToolNames, List.mem_cons, List.not_mem_nil, or_false, not_or] at h
  obtain ⟨h1, h2, h3, h4, h5, h6, h7, h8, h9⟩ := h
  unfold call_tool
  rw [if_neg h1, if_neg h2, if_neg h3, if_neg h4, if_neg h5, if_neg h6, if_neg h7,
      if_neg h8, if_neg h9]

/-- Witness for C4 at a concrete unknown tool name. -/
theorem c4_witness :
    call_tool okListGw "rename_sheet" (.dict [])
      = ⟨.error (.valueError ("Unknown tool: " ++ "rename_sheet")), []⟩ :=
  c4_unknown_tool okListGw "rename_sheet" (.dict []) (by decide)

/-- Claim C3 (corrected): for every registered tool except
`list_spreadsheets`, an argument bag that is not a mapping or is missing a
required field raises a `ValueError` and invokes no Gateway operation.
(`list_spreadsheets` has no required field and its handler never checks
that the bag is a mapping, so the original for-every-tool claim fails
there; see the counterexample.) -/
theorem c3_missing_args_raise (client : Gateway) (name : String) (args : PyVal)
    (hname : name ∈ registeredToolNames) (hnot : name ≠ "list_spreadsheets")
    (hbad : args.isDict = false ∨ ∃ k ∈ requiredFields name, args.hasKey k = false) :
    call_tool client name args
      = ⟨.error (.valueError ("Invalid arguments for " ++ name)), []⟩ := by
  have hv : validArgs args (requiredFields name) = false := validArgs_eq_false_of args _ hbad
  simp only [registeredToolNames, List.mem_cons, List.not_mem_nil, or_false] at hname
  rcases hname with rfl | rfl | rfl | rfl | rfl | rfl | rfl | rfl | rfl
  · exact absurd rfl hnot
  · rw [call_tool_open_spreadsheet]
    unfold handle_open_spreadsheet
    rw [if_pos (by simp only [requiredFields] at hv; simp [hv])]
    rfl
  · rw [call_tool_list_worksheets]
    unfold handle_list_worksheets
    rw [if_pos (by simp only [requiredFields] at hv; simp [hv])]
    rfl
  · rw [call_tool_read_worksheet]
    unfold handle_read_worksheet
    rw [if_pos (by simp only [requiredFields] at hv; simp [hv])]
    rfl
  · rw [call_tool_update_cell]
    unfold handle_update_cell
    rw [if_pos (by simp only [requiredFields] at hv; simp [hv])]
    rfl
  · rw [call_tool_update_range]
    unfold handle_update_range
    rw [if_pos (by simp only [requiredFields] at hv; simp [hv])]
    rfl
  · rw [call_tool_append_row]
    unfold handle_append_row
    rw [if_pos (by simp only [requiredFields] at hv; simp [hv])]
    rfl
  · rw [call_tool_create_spreadsheet]
    unfold handle_create_spreadsheet
    rw [if_pos (by simp only [requiredFields] at hv; simp [hv])]
    rfl
  · rw [call_tool_create_worksheet]
    unfold handle_create_worksheet
    rw [if_pos (by simp only [requiredFields] at hv; simp [hv])]
    rfl

/-- Witness for C3 at a concrete malformed call. -/
theorem c3_witness :
    call_tool okListGw "update_cell" (.int 0)
      = ⟨.error (.valueError ("Invalid arguments for " ++ "update_cell")), []⟩ :=
  c3_missing_args_raise okListGw "update_cell" (.int 0) (by decide) (by decide) (Or.inl rfl)

/-- Counterexample to C3 as stated: `list_spreadsheets` called with a
non-mapping argument bag does not raise — its handler ignores the bag
entirely, invokes the Gateway, and returns a success envelope. -/
theorem c3_counterexample :
    (PyVal.int 0).isDict = false ∧
    (call_tool okListGw "list_spreadsheets" (.int 0)).outcome
      = .ok [mkText (jsonDumps (.list []))] ∧
    (call_tool okListGw "list_spreadsheets" (.int 0)).events = [.gwListSpreadsheetFiles] :=
  ⟨rfl, rfl, rfl⟩

theorem validArgs_of_strs (args : PyVal) (keys : List String)
    (hargs : args.isDict = true)
    (hstr : ∀ k ∈ keys, ∃ s, args.getKey k = Option.some (.str s)) :
    validArgs args keys = true := by
  rw [validArgs_eq_true_iff]
  refine ⟨hargs, fun k hk => ?_⟩
  obtain ⟨s, hs⟩ := hstr k hk
  simp [PyVal.hasKey, hs]

/-- Claim C1 (corrected): for every tool whose handler has a dedicated
`SpreadsheetNotFound` clause — all registered tools except
`list_spreadsheets` and `create_spreadsheet` — a Gateway raising
`SpreadsheetNotFound` yields a success-shaped single-text envelope whose
body names the missing identifier and contains "not found", and nothing is
raised.  The two excluded tools re-raise instead; see the counterexample. -/
theorem c1_snf_envelope (name m : String) (args : PyVal)
    (hname : name ∈ snfEnvelopeTools)
    (hargs : args.isDict = true)
    (hstr : ∀ k ∈ requiredFields name, ∃ s, args.getKey k = Option.some (.str s)) :
    ∃ t, (call_tool (raiseAllGw (.spreadsheetNotFound m)) name args).outcome = ok1 t ∧
      strContains t "not found" = true ∧
      ∀ s, args.getKey (identKey name) = Option.some (.str s) → strContains t s = true := by
  simp only [snfEnvelopeTools, List.mem_cons, List.not_mem_nil, or_false] at hname
  rcases hname with rfl | rfl | rfl | rfl | rfl | rfl | rfl
  · -- open_spreadsheet
    obtain ⟨s, hs⟩ := hstr "identifier" (by decide)
    have hv : validArgs args ["identifier"] = true := validArgs_of_strs args _ hargs hstr
    have hitem : args.item "identifier" = .str s := by simp [PyVal.item, hs]
    rw [call_tool_open_spreadsheet]
    unfold handle_open_spreadsheet
    rw [if_neg (not_not_intro hv), hitem]
    unfold open_spreadsheet_try
    refine ⟨"Spreadsheet \x27" ++ s ++ "\x27 not found.", ?_, strContains_in_right _ _ _ rfl, ?_⟩
    · cases hc : strContains s urlMarker <;> simp only [pyContains, hc] <;> rfl
    · intro s2 h2
      rw [show identKey "open_spreadsheet" = "identifier" from rfl, hs] at h2
      simp only [Option.some.injEq, PyVal.str.injEq] at h2
      subst h2
      exact strContains_middle _ _ _
  · -- list_worksheets
    have hv : validArgs args ["spreadsheet_id"] = true := validArgs_of_strs args _ hargs hstr
    rw [call_tool_list_worksheets]
    unfold handle_list_worksheets
    rw [if_neg (not_not_intro hv)]
    refine ⟨"Spreadsheet with ID \x27" ++ (args.item "spreadsheet_id").pystr
        ++ "\x27 not found.", rfl, strContains_in_right _ _ _ rfl, ?_⟩
    intro s2 h2
    rw [show identKey "list_worksheets" = "spreadsheet_id" from rfl] at h2
    rw [show args.item "spreadsheet_id" = .str s2 by simp [PyVal.item, h2]]
    exact strContains_middle _ _ _
  · -- read_worksheet
    have hv : validArgs args ["spreadsheet_id", "worksheet_name"] = true :=
      validArgs_of_strs args _ hargs hstr
    rw [call_tool_read_worksheet]
    unfold handle_read_worksheet
    rw [if_neg (not_not_intro hv)]
    refine ⟨"Spreadsheet with ID \x27" ++ (args.item "spreadsheet_id").pystr
        ++ "\x27 not found.", rfl, strContains_in_right _ _ _ rfl, ?_⟩
    intro s2 h2
    rw [show identKey "read_worksheet" = "spreadsheet_id" from rfl] at h2
    rw [show args.item "spreadsheet_id" = .str s2 by simp [PyVal.item, h2]]
    exact strContains_middle _ _ _
  · -- update_cell
    have hv : validArgs args ["spreadsheet_id", "worksheet_name", "cell", "value"] = true :=
      validArgs_of_strs args _ hargs hstr
    rw [call_tool_update_cell]
    unfold handle_update_cell
    rw [if_neg (not_not_intro hv)]
    refine ⟨"Spreadsheet with ID \x27" ++ (args.item "spreadsheet_id").pystr
        ++ "\x27 not found.", rfl, strContains_in_right _ _ _ rfl, ?_⟩
    intro s2 h2
    rw [show identKey "update_cell" = "spreadsheet_id" from rfl] at h2
    rw [show args.item "spreadsheet_id" = .str s2 by simp [PyVal.item, h2]]
    exact strContains_middle _ _ _
  · -- update_range
    have hv : validArgs args ["spreadsheet_id", "worksheet_name", "range", "values"] = true :=
      validArgs_of_strs args _ hargs hstr
    rw [call_tool_update_range]
    unfold handle_update_range
    rw [if_neg (not_not_intro hv)]
    refine ⟨"Spreadsheet with ID \x27" ++ (args.item "spreadsheet_id").pystr
        ++ "\x27 not found.", rfl, strContains_in_right _ _ _ rfl, ?_⟩
    intro s2 h2
    rw [show identKey "update_range" = "spreadsheet_id" from rfl] at h2
    rw [show args.item "spreadsheet_id" = .str s2 by simp [PyVal.item, h2]]
    exact strContains_middle _ _ _
  · -- append_row
    have hv : validArgs args ["spreadsheet_id", "worksheet_name", "values"] = true :=
      validArgs_of_strs args _ hargs hstr
    rw [call_tool_append_row]
    unfold handle_append_row
    rw [if_neg (not_not_intro hv)]
    refine ⟨"Spreadsheet with ID \x27" ++ (args.item "spreadsheet_id").pystr
        ++ "\x27 not found.", rfl, strContains_in_right _ _ _ rfl, ?_⟩
    intro s2 h2
    rw [show identKey "append_row" = "spreadsheet_id" from rfl] at h2
    rw [show args.item "spreadsheet_id" = .str s2 by simp [PyVal.item, h2]]
    exact strContains_middle _ _ _
  · -- create_worksheet
    have hv : validArgs args ["spreadsheet_id", "title"] = true :=
      validArgs_of_strs args _ hargs hstr
    rw [call_tool_create_worksheet]
    unfold handle_create_worksheet
    rw [if_neg (not_not_intro hv)]
    refine ⟨"Spreadsheet with ID \x27" ++ (args.item "spreadsheet_id").pystr
        ++ "\x27 not found.", rfl, strContains_in_right _ _ _ rfl, ?_⟩
    intro s2 h2
    rw [show identKey "create_worksheet" = "spreadsheet_id" from rfl] at h2
    rw [show args.item "spreadsheet_id" = .str s2 by simp [PyVal.item, h2]]
    exact strContains_middle _ _ _

/-- Witness for C1 at a concrete call. -/
theorem c1_witness :
    ∃ t, (call_tool (raiseAllGw (.spreadsheetNotFound "boom")) "read_worksheet"
        (.dict [("spreadsheet_id", .str "SID1"), ("worksheet_name", .str "Data")])).outcome
        = ok1 t ∧
      strContains t "not found" = true ∧
      ∀ s, (PyVal.dict [("spreadsheet_id", .str "SID1"), ("worksheet_name", .str "Data")]).getKey
          (identKey "read_worksheet") = Option.some (.str s) → strContains t s = true :=
  c1_snf_envelope "read_worksheet" "boom" _ (by decide) rfl
    (by
      intro k hk
      simp only [requiredFields, List.mem_cons, List.not_mem_nil, or_false] at hk
      rcases hk with rfl | rfl
      · exact ⟨"SID1", rfl⟩
      · exact ⟨"Data", rfl⟩)

/-- Counterexample to C1 as stated: `create_spreadsheet` has no
`SpreadsheetNotFound` clause, so the same Gateway error is re-raised as an
unrecoverable `RuntimeError` instead of an envelope. -/
theorem c1_counterexample :
    (call_tool (raiseAllGw (.spreadsheetNotFound "X")) "create_spreadsheet"
        (.dict [("title", .str "My Sheet")])).outcome
      = .error (.runtimeError ("Error creating spreadsheet: " ++ "X")) := rfl

/-- Claim C5 (confirmed): a Gateway error that is neither
`SpreadsheetNotFound` nor `WorksheetNotFound` makes every tool log exactly
one record and re-raise a `RuntimeError` whose message contains the
original message; no envelope is returned. -/
theorem c5_opaque_logged_once (name m : String) (args : PyVal)
    (hname : name ∈ registeredToolNames)
    (hargs : args.isDict = true)
    (hstr : ∀ k ∈ requiredFields name, ∃ s, args.getKey k = Option.some (.str s)) :
    ∃ err, (call_tool (raiseAllGw (.otherFailure m)) name args).outcome
        = .error (.runtimeError err) ∧
      strContains err m = true ∧
      ((call_tool (raiseAllGw (.otherFailure m)) name args).events.filter
        Event.isLog).length = 1 := by
  simp only [registeredToolNames, List.mem_cons, List.not_mem_nil, or_false] at hname
  rcases hname with rfl | rfl | rfl | rfl | rfl | rfl | rfl | rfl | rfl
  · exact ⟨"Error listing spreadsheets: " ++ m, rfl, strContains_append_right _ _, rfl⟩
  · obtain ⟨s, hs⟩ := hstr "identifier" (by decide)
    have hv : validArgs args ["identifier"] = true := validArgs_of_strs args _ hargs hstr
    have hitem : args.item "identifier" = .str s := by simp [PyVal.item, hs]
    rw [call_tool_open_spreadsheet]
    unfold handle_open_spreadsheet
    rw [if_neg (not_not_intro hv), hitem]
    unfold open_spreadsheet_try
    refine ⟨"Error opening spreadsheet: " ++ m, ?_, strContains_append_right _ _, ?_⟩
    · cases hc : strContains s urlMarker <;> simp only [pyContains, hc] <;> rfl
    · cases hc : strContains s urlMarker <;> simp only [pyContains, hc] <;> rfl
  · have hv : validArgs args ["spreadsheet_id"] = true := validArgs_of_strs args _ hargs hstr
    rw [call_tool_list_worksheets]
    unfold handle_list_worksheets
    rw [if_neg (not_not_intro hv)]
    exact ⟨"Error listing worksheets: " ++ m, rfl, strContains_append_right _ _, rfl⟩
  · have hv : validArgs args ["spreadsheet_id", "worksheet_name"] = true :=
      validArgs_of_strs args _ hargs hstr
    rw [call_tool_read_worksheet]
    unfold handle_read_worksheet
    rw [if_neg (not_not_intro hv)]
    exact ⟨"Error reading worksheet: " ++ m, rfl, strContains_append_right _ _, rfl⟩
  · have hv : validArgs args ["spreadsheet_id", "worksheet_name", "cell", "value"] = true :=
      validArgs_of_strs args _ hargs hstr
    rw [call_tool_update_cell]
    unfold handle_update_cell
    rw [if_neg (not_not_intro hv)]
    exact ⟨"Error updating cell: " ++ m, rfl, strContains_append_right _ _, rfl⟩
  · have hv : validArgs args ["spreadsheet_id", "worksheet_name", "range", "values"] = true :=
      validArgs_of_strs args _ hargs hstr
    rw [call_tool_update_range]
    unfold handle_update_range
    rw [if_neg (not_not_intro hv)]
    exact ⟨"Error updating range: " ++ m, rfl, strContains_append_right _ _, rfl⟩
  · have hv : validArgs args ["spreadsheet_id", "worksheet_name", "values"] = true :=
      validArgs_of_strs args _ hargs hstr
    rw [call_tool_append_row]
    unfold handle_append_row
    rw [if_neg (not_not_intro hv)]
    exact ⟨"Error appending row: " ++ m, rfl, strContains_append_right _ _, rfl⟩
  · have hv : validArgs args ["title"] = true := validArgs_of_strs args _ hargs hstr
    rw [call_tool_create_spreadsheet]
    unfold handle_create_spreadsheet
    rw [if_neg (not_not_intro hv)]
    exact ⟨"Error creating spreadsheet: " ++ m, rfl, strContains_append_right _ _, rfl⟩
  · have hv : validArgs args ["spreadsheet_id", "title"] = true :=
      validArgs_of_strs args _ hargs hstr
    rw [call_tool_create_worksheet]
    unfold handle_create_worksheet
    rw [if_neg (not_not_intro hv)]
    exact ⟨"Error creating worksheet: " ++ m, rfl, strContains_append_right _ _, rfl⟩

/-- Witness for C5 at a concrete call. -/
theorem c5_witness :
    ∃ err, (call_tool (raiseAllGw (.otherFailure "quota exceeded")) "append_row"
        (.dict [("spreadsheet_id", .str "S"), ("worksheet_name", .str "W"),
                ("values", .str "v")])).outcome
        = .error (.runtimeError err) ∧
      strContains err "quota exceeded" = true ∧
      ((call_tool (raiseAllGw (.otherFailure "quota exceeded")) "append_row"
        (.dict [("spreadsheet_id", .str "S"), ("worksheet_name", .str "W"),
                ("values", .str "v")])).events.filter Event.isLog).length = 1 :=
  c5_opaque_logged_once "append_row" "quota exceeded" _ (by decide) rfl
    (by
      intro k hk
      simp only [requiredFields, List.mem_cons, List.not_mem_nil, or_false] at hk
      rcases hk with rfl | rfl | rfl
      · exact ⟨"S", rfl⟩
      · exact ⟨"W", rfl⟩
      · exact ⟨"v", rfl⟩)

/-- Claim C2 (corrected): an identifier containing the canonical URL marker
is resolved by id, but the id is extracted by splitting on the literal
`"/d/"` — not on the marker itself — and taking the first path component
after the first `"/d/"` occurrence (`extractSheetId`); an identifier
without the marker is resolved by exact title.  The ABC123 example still
holds (see the witness); the split-on-the-marker reading of the original
claim fails (see the counterexample). -/
theorem c2_url_extraction (client : Gateway) (s : String) :
    (strContains s urlMarker = true →
      (handle_open_spreadsheet client (.dict [("identifier", .str s)])).events.head?
        = Option.some (.gwOpenByKey (.str (extractSheetId s)))) ∧
    (strContains s urlMarker = false →
      (handle_open_spreadsheet client (.dict [("identifier", .str s)])).events.head?
        = Option.some (.gwOpenByTitle (.str s))) := by
  have he : handle_open_spreadsheet client (.dict [("identifier", .str s)])
      = open_spreadsheet_try client (.str s) := by
    unfold handle_open_spreadsheet
    rw [if_neg (not_not_intro (show validArgs (PyVal.dict [("identifier", PyVal.str s)])
      ["identifier"] = true from rfl))]
    rfl
  constructor
  · intro hc
    obtain ⟨-, -, t, ht⟩ := goodOut_open_spreadsheet_try_url client s hc
    rw [he, ht]
    rfl
  · intro hc
    obtain ⟨-, -, t, ht⟩ := goodOut_open_spreadsheet_try_title client s hc
    rw [he, ht]
    rfl

/-- Witness for C2: the canonical example resolves id ABC123 by key. -/
theorem c2_witness :
    strContains "https://docs.google.com/spreadsheets/d/ABC123/edit" urlMarker = true ∧
    (handle_open_spreadsheet okListGw
        (.dict [("identifier",
          .str "https://docs.google.com/spreadsheets/d/ABC123/edit")])).events.head?
      = Option.some (.gwOpenByKey (.str "ABC123")) := by
  refine ⟨rfl, ?_⟩
  exact (c2_url_extraction okListGw "https://docs.google.com/spreadsheets/d/ABC123/edit").1 rfl

/-- Counterexample to C2 as stated: on an identifier where "/d/" occurs
before the canonical marker, the source extracts the component after the
first "/d/" ("X"), not the component after the marker ("ABC"). -/
theorem c2_counterexample :
    strContains "/d/X/https://docs.google.com/spreadsheets/d/ABC/edit" urlMarker = true ∧
    extractSheetId "/d/X/https://docs.google.com/spreadsheets/d/ABC/edit" = "X" ∧
    specExtractSheetId "/d/X/https://docs.google.com/spreadsheets/d/ABC/edit" = "ABC" ∧
    (handle_open_spreadsheet okListGw
        (.dict [("identifier",
          .str "/d/X/https://docs.google.com/spreadsheets/d/ABC/edit")])).events
      = [.gwOpenByKey (.str "X")] :=
  ⟨rfl, rfl, rfl, rfl⟩

/-- Claim C6 (confirmed): `create_worksheet` invokes the Gateway's
add-worksheet operation with the rows and cols values determined per field
— rows=100 when `rows` is omitted and the supplied value unchanged when
present, and independently cols=26 when `cols` is omitted and the supplied
value unchanged when present — so every combination (both omitted, both
supplied, or one of each) is covered. -/
theorem c6_create_worksheet_defaults (client : Gateway) (args : PyVal) (ss : SpreadsheetObj)
    (hv : validArgs args ["spreadsheet_id", "title"] = true)
    (hopen : client.open_by_key (args.item "spreadsheet_id") = .ok ss) :
    ∃ rows cols,
      (handle_create_worksheet client args).events.take 2
        = [.gwOpenByKey (args.item "spreadsheet_id"),
           .gwAddWorksheet ss.id (args.item "title") rows cols] ∧
      (args.hasKey "rows" = false → rows = .int 100) ∧
      (∀ r, args.getKey "rows" = Option.some r → rows = r) ∧
      (args.hasKey "cols" = false → cols = .int 26) ∧
      (∀ c, args.getKey "cols" = Option.some c → cols = c) := by
  have key : (handle_create_worksheet client args).events.take 2
      = [.gwOpenByKey (args.item "spreadsheet_id"),
         .gwAddWorksheet ss.id (args.item "title")
           (args.getDefault "rows" (.int 100)) (args.getDefault "cols" (.int 26))] := by
    unfold handle_create_worksheet
    rw [if_neg (not_not_intro hv)]
    simp only [step, hopen]
    rcases ha : ss.add_worksheet (args.item "title") (args.getDefault "rows" (.int 100))
        (args.getDefault "cols" (.int 26)) with e | ws
    · simp only [ha]
      cases e <;> simp [create_worksheet_catch]
    · simp only [ha]
      simp
  refine ⟨args.getDefault "rows" (.int 100), args.getDefault "cols" (.int 26),
    key, ?_, ?_, ?_, ?_⟩
  · intro hr
    have hrn : args.getKey "rows" = Option.none := by
      rcases hgk : args.getKey "rows" with _ | v
      · rfl
      · simp only [PyVal.hasKey, hgk] at hr
        simp at hr
    simp [PyVal.getDefault, hrn]
  · intro r hr
    simp [PyVal.getDefault, hr]
  · intro hc
    have hcn : args.getKey "cols" = Option.none := by
      rcases hgk : args.getKey "cols" with _ | v
      · rfl
      · simp only [PyVal.hasKey, hgk] at hc
        simp at hc
    simp [PyVal.getDefault, hcn]
  · intro c hc
    simp [PyVal.getDefault, hc]

/-- Witness for C6 at a concrete mixed call: `rows` supplied as 5, `cols`
omitted — the Gateway receives rows=5 and the default cols=26. -/
theorem c6_witness :
    (handle_create_worksheet (specGw ⟨1, 1, fun _ _ => PyVal.none⟩)
        (.dict [("spreadsheet_id", .str "S"), ("title", .str "T"),
                ("rows", .int 5)])).events.take 2
      = [.gwOpenByKey (.str "S"),
         .gwAddWorksheet "spec-ss" (.str "T") (.int 5) (.int 26)] := by
  obtain ⟨rows, cols, hkey, hr0, hr1, hc0, hc1⟩ :=
    c6_create_worksheet_defaults (specGw ⟨1, 1, fun _ _ => PyVal.none⟩)
      (.dict [("spreadsheet_id", .str "S"), ("title", .str "T"), ("rows", .int 5)])
      (specSpreadsheet ⟨1, 1, fun _ _ => PyVal.none⟩) rfl rfl
  rw [hkey, hr1 (.int 5) rfl, hc0 rfl]
  rfl

/-- Claim C7 (confirmed over the spec-modelled Gateway): `read_worksheet`
with no range returns the complete grid with the worksheet's declared
dimensions; with range "A1:B2" exactly a 2-by-2 grid. -/
theorem c7_read_dimensions (w : WsData) (sid wn : String) :
    ((handle_read_worksheet (specGw w)
        (.dict [("spreadsheet_id", .str sid), ("worksheet_name", .str wn)])).outcome
        = ok1 (jsonDumps (gridToPy (specGetAll w))) ∧
      (specGetAll w).length = w.rows ∧
      ∀ row ∈ specGetAll w, row.length = w.cols) ∧
    ((handle_read_worksheet (specGw w)
        (.dict [("spreadsheet_id", .str sid), ("worksheet_name", .str wn),
                ("range", .str "A1:B2")])).outcome
        = ok1 (jsonDumps (gridToPy (specGet w "A1:B2"))) ∧
      (specGet w "A1:B2").length = 2 ∧
      ∀ row ∈ specGet w "A1:B2", row.length = 2) := by
  have hget : specGet w "A1:B2"
      = (List.range 2).map (fun i => (List.range 2).map (fun j => w.cell (1 + i) (1 + j))) := rfl
  refine ⟨⟨rfl, ?_, ?_⟩, rfl, ?_, ?_⟩
  · simp [specGetAll]
  · intro row hrow
    simp only [specGetAll, List.mem_map] at hrow
    obtain ⟨r, hr, rfl⟩ := hrow
    simp
  · rw [hget]
    simp
  · rw [hget]
    intro row hrow
    simp only [List.mem_map] at hrow
    obtain ⟨r, hr, rfl⟩ := hrow
    simp

/-- Witness for C7 at a concrete worksheet shape. -/
theorem c7_witness :
    ((handle_read_worksheet (specGw ⟨3, 4, fun _ _ => PyVal.none⟩)
        (.dict [("spreadsheet_id", .str "S"), ("worksheet_name", .str "W")])).outcome
        = ok1 (jsonDumps (gridToPy (specGetAll ⟨3, 4, fun _ _ => PyVal.none⟩))) ∧
      (specGetAll ⟨3, 4, fun _ _ => PyVal.none⟩).length = 3 ∧
      ∀ row ∈ specGetAll ⟨3, 4, fun _ _ => PyVal.none⟩, row.length = 4) ∧
    ((handle_read_worksheet (specGw ⟨3, 4, fun _ _ => PyVal.none⟩)
        (.dict [("spreadsheet_id", .str "S"), ("worksheet_name", .str "W"),
                ("range", .str "A1:B2")])).outcome
        = ok1 (jsonDumps (gridToPy (specGet ⟨3, 4, fun _ _ => PyVal.none⟩ "A1:B2"))) ∧
      (specGet ⟨3, 4, fun _ _ => PyVal.none⟩ "A1:B2").length = 2 ∧
      ∀ row ∈ specGet ⟨3, 4, fun _ _ => PyVal.none⟩ "A1:B2", row.length = 2) :=
  c7_read_dimensions ⟨3, 4, fun _ _ => PyVal.none⟩ "S" "W"

/-- Claim C9 (confirmed): a `read_worksheet` call whose range argument is
present but the empty string dispatches exactly as if the range were
absent; in particular the full-worksheet read, not the ranged read, is
invoked. -/
theorem c9_empty_range (client : Gateway) (args : PyVal)
    (hv : validArgs args ["spreadsheet_id", "worksheet_name"] = true)
    (hr : args.getKey "range" = Option.some (.str "")) :
    handle_read_worksheet client args
      = handle_read_worksheet client
          (.dict [("spreadsheet_id", args.item "spreadsheet_id"),
                  ("worksheet_name", args.item "worksheet_name")]) := by
  unfold handle_read_worksheet
  rw [if_neg (not_not_intro hv),
      if_neg (not_not_intro (show validArgs
        (PyVal.dict [("spreadsheet_id", args.item "spreadsheet_id"),
                     ("worksheet_name", args.item "worksheet_name")])
        ["spreadsheet_id", "worksheet_name"] = true from rfl))]
  simp only [PyVal.getDefault, hr, Option.getD_some]
  simp [PyVal.item, PyVal.getKey, lookupEntry, PyVal.truthy]

/-- Witness for C9 at a concrete call. -/
theorem c9_witness :
    handle_read_worksheet (specGw ⟨2, 2, fun _ _ => PyVal.none⟩)
        (.dict [("spreadsheet_id", .str "S"), ("worksheet_name", .str "W"),
                ("range", .str "")])
      = handle_read_worksheet (specGw ⟨2, 2, fun _ _ => PyVal.none⟩)
          (.dict [("spreadsheet_id", .str "S"), ("worksheet_name", .str "W")]) := by
  exact c9_empty_range (specGw ⟨2, 2, fun _ _ => PyVal.none⟩)
      (.dict [("spreadsheet_id", .str "S"), ("worksheet_name", .str "W"),
              ("range", .str "")]) rfl rfl

/-- Claim C10 (corrected): argument validation checks key presence only —
any mapping containing the required keys passes validation, extra keys are
ignored, values are never type-checked, and the Gateway is invoked — except
that `open_spreadsheet` applies the URL membership test to the identifier
inside the `try`, so a non-container identifier (e.g. null) raises a
`RuntimeError`-wrapped `TypeError` before any Gateway call; see the
counterexample. -/
theorem c10_presence_only_validation (client : Gateway) (name : String) (args : PyVal)
    (hname : name ∈ registeredToolNames)
    (hargs : args.isDict = true)
    (hreq : ∀ k ∈ requiredFields name, args.hasKey k = true)
    (hid : name = "open_spreadsheet" → ∃ s, args.item "identifier" = .str s) :
    NoValueError (call_tool client name args) ∧ GwFirst (call_tool client name args) := by
  simp only [registeredToolNames, List.mem_cons, List.not_mem_nil, or_false] at hname
  have hvgen : ∀ keys, (∀ k ∈ keys, args.hasKey k = true) → validArgs args keys = true :=
    fun keys hk => (validArgs_eq_true_iff args keys).mpr ⟨hargs, hk⟩
  rcases hname with rfl | rfl | rfl | rfl | rfl | rfl | rfl | rfl | rfl
  · rw [call_tool_list_spreadsheets]
    obtain ⟨h1, h2, t, ht⟩ := goodOut_handle_list_spreadsheets client args
    exact ⟨h2, Event.gwListSpreadsheetFiles, t, by rw [ht]; rfl, rfl⟩
  · obtain ⟨s, hs⟩ := hid rfl
    have hv : validArgs args ["identifier"] = true := hvgen _ hreq
    rw [call_tool_open_spreadsheet]
    have he : handle_open_spreadsheet client args = open_spreadsheet_try client (.str s) := by
      unfold handle_open_spreadsheet
      rw [if_neg (not_not_intro hv), hs]
    rw [he]
    refine ⟨noValueError_open_spreadsheet_try client _, ?_⟩
    by_cases hc : strContains s urlMarker = true
    · obtain ⟨-, -, t, ht⟩ := goodOut_open_spreadsheet_try_url client s hc
      exact ⟨Event.gwOpenByKey (.str (extractSheetId s)), t, by rw [ht]; rfl, rfl⟩
    · obtain ⟨-, -, t, ht⟩ := goodOut_open_spreadsheet_try_title client s (Bool.eq_false_iff.mpr hc)
      exact ⟨Event.gwOpenByTitle (.str s), t, by rw [ht]; rfl, rfl⟩
  · have hv := hvgen _ hreq
    rw [call_tool_list_worksheets]
    obtain ⟨h1, h2, t, ht⟩ := goodOut_handle_list_worksheets client args hv
    exact ⟨h2, Event.gwOpenByKey (args.item "spreadsheet_id"), t, by rw [ht]; rfl, rfl⟩
  · have hv := hvgen _ hreq
    rw [call_tool_read_worksheet]
    obtain ⟨h1, h2, t, ht⟩ := goodOut_handle_read_worksheet client args hv
    exact ⟨h2, Event.gwOpenByKey (args.item "spreadsheet_id"), t, by rw [ht]; rfl, rfl⟩
  · have hv := hvgen _ hreq
    rw [call_tool_update_cell]
    obtain ⟨h1, h2, t, ht⟩ := goodOut_handle_update_cell client args hv
    exact ⟨h2, Event.gwOpenByKey (args.item "spreadsheet_id"), t, by rw [ht]; rfl, rfl⟩
  · have hv := hvgen _ hreq
    rw [call_tool_update_range]
    obtain ⟨h1, h2, t, ht⟩ := goodOut_handle_update_range client args hv
    exact ⟨h2, Event.gwOpenByKey (args.item "spreadsheet_id"), t, by rw [ht]; rfl, rfl⟩
  · have hv := hvgen _ hreq
    rw [call_tool_append_row]
    obtain ⟨h1, h2, t, ht⟩ := goodOut_handle_append_row client args hv
    exact ⟨h2, Event.gwOpenByKey (args.item "spreadsheet_id"), t, by rw [ht]; rfl, rfl⟩
  · have hv := hvgen _ hreq
    rw [call_tool_create_spreadsheet]
    obtain ⟨h1, h2, t, ht⟩ := goodOut_handle_create_spreadsheet client args hv
    exact ⟨h2, Event.gwCreate (args.item "title"), t, by rw [ht]; rfl, rfl⟩
  · have hv := hvgen _ hreq
    rw [call_tool_create_worksheet]
    obtain ⟨h1, h2, t, ht⟩ := goodOut_handle_create_worksheet client args hv
    exact ⟨h2, Event.gwOpenByKey (args.item "spreadsheet_id"), t, by rw [ht]; rfl, rfl⟩

/-- Witness for C10: `update_cell` with a null value and an extra key still
reaches the Gateway. -/
theorem c10_witness :
    NoValueError (call_tool okListGw "update_cell"
      (.dict [("spreadsheet_id", .str "S"), ("worksheet_name", .str "W"),
              ("cell", .str "A1"), ("value", PyVal.none), ("extra", .int 7)])) ∧
    GwFirst (call_tool okListGw "update_cell"
      (.dict [("spreadsheet_id", .str "S"), ("worksheet_name", .str "W"),
              ("cell", .str "A1"), ("value", PyVal.none), ("extra", .int 7)])) :=
  c10_presence_only_validation okListGw "update_cell" _ (by decide) rfl
    (by
      intro k hk
      simp only [requiredFields, List.mem_cons, List.not_mem_nil, or_false] at hk
      rcases hk with rfl | rfl | rfl | rfl <;> rfl)
    (fun h => absurd h (by decide))

/-- Counterexample to C10 as stated: `open_spreadsheet` with identifier
null passes presence validation but raises before any Gateway call — no
Gateway event is recorded. -/
theorem c10_counterexample :
    (PyVal.dict [("identifier", PyVal.none)]).hasKey "identifier" = true ∧
    (call_tool okListGw "open_spreadsheet" (.dict [("identifier", PyVal.none)])).outcome
      = .error (.runtimeError ("Error opening spreadsheet: "
          ++ "argument of type \x27NoneType\x27 is not iterable")) ∧
    (call_tool okListGw "open_spreadsheet" (.dict [("identifier", PyVal.none)])).events
      = [.logError ("Error opening spreadsheet: "
          ++ "argument of type \x27NoneType\x27 is not iterable")] :=
  ⟨rfl, rfl, rfl⟩

end SheetsMcp
